import Mathlib

/-!
Verification of girderfs `core.py` (classes `GirderFS`, `RESTGirderFS`,
`LocalGirderFS`) against its natural-language specification.

The Python module is shallowly embedded: dictionaries returned by the REST
listing endpoint become the `Entry`/`Listing` structures, dict-key access that
may raise `KeyError` becomes `Option` fields, Python exceptions become the
`PyErr` error type carried in `Except`, the `diskcache.Cache` of listings
becomes an association list threaded through each operation together with a
counter of issued REST calls, and the two listing endpoints of the Girder
client become oracle functions `String → Option Listing` (`none` models a
`girder_client.HttpError`).
-/

set_option autoImplicit false

namespace Girderfs

/-- Python exception kinds that the embedded code can surface:
`FuseOSError(ENOENT)`, `KeyError`, `ValueError` (from `dateutil` parse
failures) and `girder_client.HttpError`. -/
inductive PyErr where
  | enoent
  | keyError
  | valueError
  | httpError
deriving DecidableEq, Repr

/-- One child object of a Girder listing: the dict fields used by `core.py`.
`updated`, `size` and `path` model dict keys that may be absent. -/
structure Entry where
  oid : String
  name : String
  created : String
  updated : Option String := none
  size : Option Nat := none
  path : Option String := none
deriving DecidableEq, Repr

/-- The JSON body of `GET folder/{id}/listing` / `GET item/{id}/listing`:
`{folders: [...], files: [...]}`. -/
structure Listing where
  folders : List Entry
  files : List Entry
deriving DecidableEq, Repr

/-- The remote Girder REST service, as the two listing endpoints used by
`_get_listing`. `none` models the call raising `girder_client.HttpError`. -/
structure Girder where
  folderListing : String → Option Listing
  itemListing : String → Option Listing

/-- Mutable state of a `GirderFS` instance: the `diskcache.Cache` of listings
(an association list from object id to cached listing) and a count of REST
calls issued so far (to observe memoization). -/
structure FSState where
  cache : List (String × Listing)
  restCalls : Nat
deriving DecidableEq, Repr

/-- The type tag returned by `_get_object_by_path`: `"folder"` or `"file"`. -/
inductive ObjType where
  | folder
  | file
deriving DecidableEq, Repr

/-- Dictionary lookup in an association list (models `cache[key]` /
`cache.get(key)`). -/
def alookup {β : Type} : List (String × β) → String → Option β
  | [], _ => none
  | (k, v) :: es, key => if k = key then some v else alookup es key

/-- `_convert_time`: `tparse(strtime).timestamp()`. The external `dateutil`
parser is the oracle `tp`; an unparseable string makes `tparse` raise
`ValueError`. -/
def _convert_time (tp : String → Option Nat) (s : String) : Except PyErr Nat :=
  match tp s with
  | some t => Except.ok t
  | none => Except.error PyErr.valueError

/-- `GirderFS._get_listing`: return the cached listing for `obj_id` if
present; otherwise try `GET folder/{id}/listing`, falling back to
`GET item/{id}/listing` on `HttpError`, caching whichever succeeds under
`obj_id`. When both calls fail, the `return self.cache[obj_id]` inside the
`finally` block swallows the in-flight `HttpError` and raises `KeyError`
from the cache lookup; nothing is cached. -/
def _get_listing (g : Girder) (st : FSState) (oid : String) :
    Except PyErr Listing × FSState :=
  match alookup st.cache oid with
  | some l => (Except.ok l, st)
  | none =>
    match g.folderListing oid with
    | some l =>
      (Except.ok l, { cache := (oid, l) :: st.cache, restCalls := st.restCalls + 1 })
    | none =>
      match g.itemListing oid with
      | some l =>
        (Except.ok l, { cache := (oid, l) :: st.cache, restCalls := st.restCalls + 2 })
      | none =>
        (Except.error PyErr.keyError,
          { cache := st.cache, restCalls := st.restCalls + 2 })

/-- `GirderFS._get_object_by_path(obj_id, path)` for a path with segments
`first :: rest` (the Python caller always passes a non-empty relative path).
Folders are searched first; a folder match with remaining segments recurses;
otherwise files are searched, and a file match is returned whether or not
segments remain (the Python code does not check `len(path.parts)` in the file
branch); no match raises `FuseOSError(ENOENT)`. -/
def _get_object_by_path (g : Girder) (st : FSState) (oid first : String)
    (rest : List String) : Except PyErr (Entry × ObjType) × FSState :=
  match _get_listing g st oid with
  | (Except.error e, st') => (Except.error e, st')
  | (Except.ok listing, st') =>
    match listing.folders.find? (fun i => i.name == first) with
    | some folder =>
      match rest with
      | [] => (Except.ok (folder, ObjType.folder), st')
      | r :: rs => _get_object_by_path g st' folder.oid r rs
    | none =>
      match listing.files.find? (fun i => i.name == first) with
      | some f => (Except.ok (f, ObjType.file), st')
      | none => (Except.error PyErr.enoent, st')

/-- The stat dict built by `GirderFS.getattr`. Fields absent from the
root-path dict are `none`. -/
structure Stat where
  st_mode : Nat
  st_nlink : Nat
  st_ctime : Option Nat := none
  st_mtime : Option Nat := none
  st_blocks : Option Nat := none
  st_size : Option Nat := none
  st_atime : Option Nat := none
deriving DecidableEq, Repr

/-- `GirderFS.getattr(path)`. `parts` is the path split into segments after
stripping the leading `/` (`[]` is the root path `/`). For non-root paths the
object is resolved, the mode/nlink pair fixed by its type
(`S_IFDIR|0o755`/2 for folders, `S_IFREG|0o644`/1 for files), `st_ctime`
parsed from `created` (a parse failure propagates as `ValueError`),
`st_mtime` from `updated` with fallback to `st_ctime` only when the key is
missing (`except KeyError`), and `st_size` read from `obj["size"]`, raising
`KeyError` when absent. `now` models `time.time()`. -/
def getattr (g : Girder) (tp : String → Option Nat) (now : Nat) (st : FSState)
    (folder_id : String) (parts : List String) : Except PyErr Stat × FSState :=
  match parts with
  | [] => (Except.ok { st_mode := 0o40755, st_nlink := 2 }, st)
  | first :: rest =>
    match _get_object_by_path g st folder_id first rest with
    | (Except.error e, st') => (Except.error e, st')
    | (Except.ok (obj, ty), st') =>
      let mode : Nat := match ty with
        | ObjType.folder => 0o40755
        | ObjType.file => 0o100644
      let nlink : Nat := match ty with
        | ObjType.folder => 2
        | ObjType.file => 1
      match _convert_time tp obj.created with
      | Except.error e => (Except.error e, st')
      | Except.ok ctime =>
        match (match obj.updated with
               | some u => _convert_time tp u
               | none => Except.ok ctime) with
        | Except.error e => (Except.error e, st')
        | Except.ok mtime =>
          match obj.size with
          | none => (Except.error PyErr.keyError, st')
          | some sz =>
            (Except.ok { st_mode := mode, st_nlink := nlink,
                         st_ctime := some ctime, st_mtime := some mtime,
                         st_blocks := some 1, st_size := some sz,
                         st_atime := some now }, st')

/-- `fp.seek(offset)` followed by `fp.read(size)` on a blob: the byte window
starting at `offset` of at most `size` bytes (a seek past end-of-file
followed by a read yields no bytes). -/
def readSlice (content : List Nat) (offset size : Nat) : List Nat :=
  (content.drop offset).take size

/-- The blob-cache key computed by `RESTGirderFS.read`:
`'#'.join((obj['_id'], obj.get('updated', obj['created'])))`. -/
def blobKey (obj : Entry) : String :=
  obj.oid ++ "#" ++ (obj.updated.getD obj.created)

/-- The blob that `RESTGirderFS.read` seeks into: resolve the path, compute
the cache key, and either take the cached blob on a hit or download the full
file content (`dl` is the `GET file/{id}/download` oracle) and register it in
the blob cache `bc` under the computed key. -/
def rest_blob (g : Girder) (dl : String → List Nat) (st : FSState)
    (bc : List (String × List Nat)) (folder_id first : String)
    (rest : List String) :
    Except PyErr (List Nat) × FSState × List (String × List Nat) :=
  match _get_object_by_path g st folder_id first rest with
  | (Except.error e, st') => (Except.error e, st', bc)
  | (Except.ok (obj, _), st') =>
    match alookup bc (blobKey obj) with
    | some content => (Except.ok content, st', bc)
    | none =>
      let content := dl obj.oid
      (Except.ok content, st', (blobKey obj, content) :: bc)

/-- `RESTGirderFS.read(path, size, offset, fh)`: obtain the full blob
(cached or freshly downloaded), then `fp.seek(offset); fp.read(size)`. -/
def rest_read (g : Girder) (dl : String → List Nat) (st : FSState)
    (bc : List (String × List Nat)) (folder_id first : String)
    (rest : List String) (size offset : Nat) :
    Except PyErr (List Nat) × FSState × List (String × List Nat) :=
  match rest_blob g dl st bc folder_id first rest with
  | (Except.error e, st', bc') => (Except.error e, st', bc')
  | (Except.ok content, st', bc') =>
    (Except.ok (readSlice content offset size), st', bc')

/-- The file content `LocalGirderFS.read` reads from: resolve the path, take
`obj['path']` (`KeyError` when absent) and open it on the local disk oracle
(`none` models `FileNotFoundError`, an `OSError` with `ENOENT`). -/
def local_blob (g : Girder) (disk : String → Option (List Nat)) (st : FSState)
    (folder_id first : String) (rest : List String) :
    Except PyErr (List Nat) × FSState :=
  match _get_object_by_path g st folder_id first rest with
  | (Except.error e, st') => (Except.error e, st')
  | (Except.ok (obj, _), st') =>
    match obj.path with
    | none => (Except.error PyErr.keyError, st')
    | some p =>
      match disk p with
      | none => (Except.error PyErr.enoent, st')
      | some content => (Except.ok content, st')

/-- `LocalGirderFS.read(path, size, offset, fh)`: `os.open` the object's
local path, `os.lseek(fh, offset, 0)` and `os.read(fh, size)`. -/
def local_read (g : Girder) (disk : String → Option (List Nat)) (st : FSState)
    (folder_id first : String) (rest : List String) (size offset : Nat) :
    Except PyErr (List Nat) × FSState :=
  match local_blob g disk st folder_id first rest with
  | (Except.error e, st') => (Except.error e, st')
  | (Except.ok content, st') => (Except.ok (readSlice content offset size), st')

/-- One FUSE lifecycle call on a `RESTGirderFS`: `open` (its path argument is
irrelevant to handle allocation) or `release` with the handle argument `fh`
that the Python code ignores. -/
inductive FEvent where
  | op
  | rel (fh : Int)
deriving DecidableEq, Repr

/-- `RESTGirderFS.open`: `self.fd += 1; return self.fd`. -/
def fdOpen (fd : Int) : Int × Int := (fd + 1, fd + 1)

/-- `RESTGirderFS.release`: `self.fd -= 1; return self.fd`, ignoring which
handle is being released. -/
def fdRelease (fd : Int) (_fh : Int) : Int := fd - 1

/-- Run a sequence of `open`/`release` calls against the shared `fd` counter,
returning the handle values handed out by the `open` calls in order. -/
def runFd : Int → List FEvent → List Int
  | _, [] => []
  | fd, FEvent.op :: es => (fdOpen fd).2 :: runFd (fdOpen fd).1 es
  | fd, FEvent.rel fh :: es => runFd (fdRelease fd fh) es

/-- The handles that are currently live: opened and not yet released. -/
def liveHandles (opened released : List Int) : List Int :=
  opened.filter (fun h => !(released.contains h))

/-! ### Concrete fixture

A small Girder hierarchy used to instantiate the theorems: a root folder
`"root"` holding three sub-folders (one whose listing entry carries no
`size` key, one fully populated, and one sharing the name `dup` with a
file) and five files (one with timestamps `t1`/`t2` and size 1024, the
`dup` file, one with an unparseable `created`, one with an unparseable
`updated`, and one with no `updated` key and a local path). -/

def noSizeFolder : Entry := { oid := "F1", name := "proj", created := "t1" }

def sizedFolder : Entry :=
  { oid := "F2", name := "proj2", created := "t1", updated := some "t2",
    size := some 0 }

def dupFolder : Entry :=
  { oid := "F3", name := "dup", created := "t1", size := some 0 }

def dataFile : Entry :=
  { oid := "I1", name := "data.csv", created := "t1", updated := some "t2",
    size := some 1024, path := some "/srv/data.csv" }

def dupFile : Entry :=
  { oid := "I2", name := "dup", created := "t1", size := some 5 }

def badFile : Entry :=
  { oid := "I3", name := "bad", created := "badtime", size := some 1 }

def badUpdFile : Entry :=
  { oid := "I5", name := "badupd", created := "t1", updated := some "badtime",
    size := some 2 }

def noUpdFile : Entry :=
  { oid := "I4", name := "nu", created := "t1", size := some 3,
    path := some "/srv/nu" }

def rootL : Listing :=
  { folders := [noSizeFolder, sizedFolder, dupFolder],
    files := [dataFile, dupFile, badFile, badUpdFile, noUpdFile] }

def emptyL : Listing := { folders := [], files := [] }

/-- Fixture service: the root listing under `"root"`, empty listings for the
sub-folders, no item-type resources. -/
def gW : Girder :=
  { folderListing := fun oid =>
      if oid = "root" then some rootL
      else if oid = "F1" then some emptyL
      else if oid = "F2" then some emptyL
      else if oid = "F3" then some emptyL
      else none,
    itemListing := fun _ => none }

/-- Fixture service whose root is an item-type resource: the folder-listing
call fails, the item-listing call succeeds. -/
def gItem : Girder :=
  { folderListing := fun _ => none,
    itemListing := fun oid => if oid = "root" then some rootL else none }

/-- Fixture service where both listing calls fail for every id. -/
def gFail : Girder :=
  { folderListing := fun _ => none, itemListing := fun _ => none }

/-- Fixture timestamp parser: `t1 ↦ 100`, `t2 ↦ 200`, everything else
(in particular `badtime`) unparseable. -/
def tpW : String → Option Nat :=
  fun s => if s = "t1" then some 100 else if s = "t2" then some 200 else none

/-- Fixture download service: file `I1` has five bytes of content. -/
def dlW : String → List Nat :=
  fun oid => if oid = "I1" then [9, 8, 7, 6, 5] else []

/-- Fixture local disk: the assetstore path of `noUpdFile` has three bytes. -/
def diskW : String → Option (List Nat) :=
  fun p => if p = "/srv/nu" then some [1, 2, 3] else none

/-- Initial state: empty listing cache, no REST calls issued. -/
def st0 : FSState := { cache := [], restCalls := 0 }

/-- State after one resolution step from `st0` against `gW`: the root
listing cached, one REST call issued. -/
def st1 : FSState := { cache := [("root", rootL)], restCalls := 1 }

/-! ### Listing-cache lemmas -/

/-- A cache hit leaves the state untouched and issues no REST call. -/
theorem get_listing_hit {g : Girder} {st : FSState} {oid : String}
    {l : Listing} (h : alookup st.cache oid = some l) :
    _get_listing g st oid = (Except.ok l, st) := by
  unfold _get_listing
  rw [h]

/-- A successful `_get_listing` leaves its result in the cache under the
requested key. -/
theorem get_listing_ok_lookup {g : Girder} {st st' : FSState} {oid : String}
    {l : Listing} (h : _get_listing g st oid = (Except.ok l, st')) :
    alookup st'.cache oid = some l := by
  unfold _get_listing at h
  cases h0 : alookup st.cache oid with
  | some l0 =>
    rw [h0] at h
    obtain ⟨h1, h2⟩ := Prod.mk.injEq .. ▸ h
    cases h1
    cases h2
    exact h0
  | none =>
    rw [h0] at h
    cases hf : g.folderListing oid with
    | some lf =>
      rw [hf] at h
      obtain ⟨h1, h2⟩ := Prod.mk.injEq .. ▸ h
      cases h1
      cases h2
      simp [alookup]
    | none =>
      rw [hf] at h
      cases hi : g.itemListing oid with
      | some li =>
        rw [hi] at h
        obtain ⟨h1, h2⟩ := Prod.mk.injEq .. ▸ h
        cases h1
        cases h2
        simp [alookup]
      | none =>
        rw [hi] at h
        obtain ⟨h1, _⟩ := Prod.mk.injEq .. ▸ h
        cases h1

/-- `_get_listing` never evicts: any cached binding survives the call. -/
theorem get_listing_mono {g : Girder} {st st' : FSState} {oid : String}
    {r : Except PyErr Listing} (h : _get_listing g st oid = (r, st'))
    {k : String} {v : Listing} (hk : alookup st.cache k = some v) :
    alookup st'.cache k = some v := by
  unfold _get_listing at h
  cases h0 : alookup st.cache oid with
  | some l0 =>
    rw [h0] at h
    obtain ⟨_, h2⟩ := Prod.mk.injEq .. ▸ h
    cases h2
    exact hk
  | none =>
    rw [h0] at h
    have hne : oid ≠ k := by
      intro he
      rw [he, hk] at h0
      cases h0
    cases hf : g.folderListing oid with
    | some lf =>
      rw [hf] at h
      obtain ⟨_, h2⟩ := Prod.mk.injEq .. ▸ h
      cases h2
      simpa [alookup, hne] using hk
    | none =>
      rw [hf] at h
      cases hi : g.itemListing oid with
      | some li =>
        rw [hi] at h
        obtain ⟨_, h2⟩ := Prod.mk.injEq .. ▸ h
        cases h2
        simpa [alookup, hne] using hk
      | none =>
        rw [hi] at h
        obtain ⟨_, h2⟩ := Prod.mk.injEq .. ▸ h
        cases h2
        exact hk

/-- Re-fetching a listing that was just fetched is a pure cache hit: same
result, state unchanged. -/
theorem get_listing_idem {g : Girder} {st st' : FSState} {oid : String}
    {l : Listing} (h : _get_listing g st oid = (Except.ok l, st')) :
    _get_listing g st' oid = (Except.ok l, st') :=
  get_listing_hit (get_listing_ok_lookup h)

/-- Path resolution never evicts a cached binding. -/
theorem resolve_mono {rest : List String} {g : Girder} {st st' : FSState}
    {oid first : String} {r : Except PyErr (Entry × ObjType)}
    (h : _get_object_by_path g st oid first rest = (r, st'))
    {k : String} {v : Listing} (hk : alookup st.cache k = some v) :
    alookup st'.cache k = some v := by
  induction rest generalizing st st' oid first r with
  | nil =>
    unfold _get_object_by_path at h
    split at h
    next e stm heq =>
      injection h with h1 h2
      subst h2
      exact get_listing_mono heq hk
    next listing stm heq =>
      split at h
      next folder hfind =>
        injection h with h1 h2
        subst h2
        exact get_listing_mono heq hk
      next hfold =>
        split at h
        next f hfind =>
          injection h with h1 h2
          subst h2
          exact get_listing_mono heq hk
        next hfind =>
          injection h with h1 h2
          subst h2
          exact get_listing_mono heq hk
  | cons rhd rtl ih =>
    unfold _get_object_by_path at h
    split at h
    next e stm heq =>
      injection h with h1 h2
      subst h2
      exact get_listing_mono heq hk
    next listing stm heq =>
      split at h
      next folder hfind =>
        exact ih h (get_listing_mono heq hk)
      next hfold =>
        split at h
        next f hfind =>
          injection h with h1 h2
          subst h2
          exact get_listing_mono heq hk
        next hfind =>
          injection h with h1 h2
          subst h2
          exact get_listing_mono heq hk

/-! ### Claim theorems -/

/-- C7: for every resolvable path, resolving it twice in a row with no
intervening invalidation returns the same object, the second resolution
being served entirely from the listing cache: it leaves the state (cache
and REST-call counter) exactly as the first resolution left it, so no new
REST call is issued. -/
theorem c7_resolve_twice_same {rest : List String} {g : Girder}
    {st st' : FSState} {oid first : String} {obj : Entry} {ty : ObjType}
    (h : _get_object_by_path g st oid first rest = (Except.ok (obj, ty), st')) :
    _get_object_by_path g st' oid first rest = (Except.ok (obj, ty), st') := by
  induction rest generalizing st st' oid first obj ty with
  | nil =>
    unfold _get_object_by_path at h
    split at h
    next e stm heq => simp at h
    next listing stm heq =>
      split at h
      next folder hfind =>
        injection h with h1 h2
        subst h2
        unfold _get_object_by_path
        rw [get_listing_idem heq]
        dsimp only
        rw [hfind]
        dsimp only
        rw [h1]
      next hfold =>
        split at h
        next f hfind =>
          injection h with h1 h2
          subst h2
          unfold _get_object_by_path
          rw [get_listing_idem heq]
          dsimp only
          rw [hfold]
          dsimp only
          rw [hfind]
          dsimp only
          rw [h1]
        next hfind => simp at h
  | cons rhd rtl ih =>
    unfold _get_object_by_path at h
    split at h
    next e stm heq => simp at h
    next listing stm heq =>
      split at h
      next folder hfind =>
        have hl : alookup stm.cache oid = some listing := get_listing_ok_lookup heq
        have hl' : alookup st'.cache oid = some listing := resolve_mono h hl
        unfold _get_object_by_path
        rw [get_listing_hit hl']
        dsimp only
        rw [hfind]
        dsimp only
        exact ih h
      next hfold =>
        split at h
        next f hfind =>
          injection h with h1 h2
          subst h2
          unfold _get_object_by_path
          rw [get_listing_idem heq]
          dsimp only
          rw [hfold]
          dsimp only
          rw [hfind]
          dsimp only
          rw [h1]
        next hfind => simp at h

/-- Witness for C7: the folder `proj2` resolved from the warm state `st1`
(left behind by a first resolution from `st0`) yields the same object and
the same state again. -/
theorem c7_resolve_twice_same_witness :
    _get_object_by_path gW st1 "root" "proj2" []
      = (Except.ok (sizedFolder, ObjType.folder), st1) :=
  @c7_resolve_twice_same [] gW st0 st1 "root" "proj2" sizedFolder
    ObjType.folder (by rfl)

/-- C6: when a folder and a file share the same name at one level, resolving
a path ending at that name yields the folder: the folder list is searched
first, so folder names shadow file names — even though a file of the same
name is present in the listing. -/
theorem c6_folder_shadows_file {g : Girder} {st st' : FSState}
    {oid name : String} {l : Listing} {fo fi : Entry}
    (hl : _get_listing g st oid = (Except.ok l, st'))
    (hfo : l.folders.find? (fun i => i.name == name) = some fo)
    (_hfi : l.files.find? (fun i => i.name == name) = some fi) :
    _get_object_by_path g st oid name [] = (Except.ok (fo, ObjType.folder), st') := by
  unfold _get_object_by_path
  rw [hl]
  dsimp only
  rw [hfo]

/-- Witness for C6: the name `dup` is carried by both `dupFolder` and
`dupFile` in the root listing; resolving `dup` yields the folder. -/
theorem c6_folder_shadows_file_witness :
    _get_object_by_path gW st0 "root" "dup" []
      = (Except.ok (dupFolder, ObjType.folder), st1) :=
  c6_folder_shadows_file (by rfl) (by rfl) (by rfl)

/-- C2 counterexample: `data.csv` is a file in the root listing and the path
has a remaining segment (`x`), yet `_get_object_by_path` returns the file
object instead of failing with `FuseOSError(ENOENT)` — the Python file
branch never checks whether path segments remain, so the claim as stated is
false at this input. -/
theorem c2_counterexample :
    (_get_object_by_path gW st0 "root" "data.csv" ["x"]).1
      = Except.ok (dataFile, ObjType.file) ∧
    (_get_object_by_path gW st0 "root" "data.csv" ["x"]).1
      ≠ Except.error PyErr.enoent := by
  constructor
  · rfl
  · intro hcontra
    rw [show (_get_object_by_path gW st0 "root" "data.csv" ["x"]).1
          = Except.ok (dataFile, ObjType.file) from rfl] at hcontra
    exact Except.noConfusion hcontra

/-- C2 amended: when a path segment matches a file name (and no folder of
that name exists at that level), resolution returns that file tagged File
regardless of how many segments remain — the remaining segments are
ignored, rather than resolution failing with NotFound. -/
theorem c2_file_match_ignores_rest {g : Girder} {st st' : FSState}
    {oid first : String} (rest : List String) {l : Listing} {f : Entry}
    (hl : _get_listing g st oid = (Except.ok l, st'))
    (hfo : l.folders.find? (fun i => i.name == first) = none)
    (hfi : l.files.find? (fun i => i.name == first) = some f) :
    _get_object_by_path g st oid first rest = (Except.ok (f, ObjType.file), st') := by
  unfold _get_object_by_path
  rw [hl]
  dsimp only
  rw [hfo]
  dsimp only
  rw [hfi]

/-- Witness for C2 amended: resolving `data.csv` with two bogus trailing
segments still returns the file object. -/
theorem c2_file_match_ignores_rest_witness :
    _get_object_by_path gW st0 "root" "data.csv" ["x", "y"]
      = (Except.ok (dataFile, ObjType.file), st1) :=
  c2_file_match_ignores_rest ["x", "y"] (by rfl) (by rfl) (by rfl)

/-- C1: in both backends a read is a seek-and-read window over the full
blob: whenever the blob of the resolved file has been obtained (cached or
downloaded for Remote-Read, opened from the local assetstore path for
Local-Read), a read of `size` bytes at `offset` returns exactly
`min size (N - offset)` bytes for a blob of `N` bytes, and an offset at or
beyond `N` yields zero bytes rather than an error. -/
theorem c1_read_window :
    (∀ (g : Girder) (dl : String → List Nat) (st : FSState)
       (bc : List (String × List Nat)) (fid first : String)
       (rest : List String) (size offset : Nat) (content : List Nat)
       (st' : FSState) (bc' : List (String × List Nat)),
       rest_blob g dl st bc fid first rest = (Except.ok content, st', bc') →
       rest_read g dl st bc fid first rest size offset
         = (Except.ok (readSlice content offset size), st', bc') ∧
       (readSlice content offset size).length
         = min size (content.length - offset) ∧
       (content.length ≤ offset → readSlice content offset size = [])) ∧
    (∀ (g : Girder) (disk : String → Option (List Nat)) (st : FSState)
       (fid first : String) (rest : List String) (size offset : Nat)
       (content : List Nat) (st' : FSState),
       local_blob g disk st fid first rest = (Except.ok content, st') →
       local_read g disk st fid first rest size offset
         = (Except.ok (readSlice content offset size), st') ∧
       (readSlice content offset size).length
         = min size (content.length - offset) ∧
       (content.length ≤ offset → readSlice content offset size = [])) := by
  constructor
  · intro g dl st bc fid first rest size offset content st' bc' h
    refine ⟨?_, ?_, ?_⟩
    · unfold rest_read
      rw [h]
    · simp [readSlice]
    · intro hN
      simp [readSlice, List.drop_eq_nil_of_le hN]
  · intro g disk st fid first rest size offset content st' h
    refine ⟨?_, ?_, ?_⟩
    · unfold local_read
      rw [h]
    · simp [readSlice]
    · intro hN
      simp [readSlice, List.drop_eq_nil_of_le hN]

/-- Witness for C1: a Remote-Read of 100 bytes at offset 3 of the 5-byte
blob of `data.csv` returns its last 2 bytes (`min 100 (5-3)`), and a
Local-Read at offset 5 of the 3-byte file `nu` returns zero bytes. -/
theorem c1_read_window_witness :
    rest_read gW dlW st0 [] "root" "data.csv" [] 100 3
      = (Except.ok [6, 5], st1, [("I1#t2", [9, 8, 7, 6, 5])]) ∧
    local_read gW diskW st0 "root" "nu" [] 7 5 = (Except.ok [], st1) :=
  ⟨(c1_read_window.1 gW dlW st0 [] "root" "data.csv" [] 100 3
      [9, 8, 7, 6, 5] st1 [("I1#t2", [9, 8, 7, 6, 5])] (by rfl)).1,
   (c1_read_window.2 gW diskW st0 "root" "nu" [] 7 5 [1, 2, 3] st1 (by rfl)).1⟩

/-- Two blob-cache keys built from the same object id differ exactly when
their timestamp components differ. -/
theorem blob_key_ne {a t t' : String} (h : t ≠ t') :
    a ++ "#" ++ t ≠ a ++ "#" ++ t' := by
  intro he
  apply h
  apply String.ext
  have hd := congrArg String.data he
  simp only [String.data_append, List.append_assoc] at hd
  exact List.append_cancel_left (List.append_cancel_left hd)

/-- C9: the Remote-Read blob cache serves a cached blob only while the
key's timestamp component equals the file's current `updated`
(or `created`, if never updated) timestamp: if the cache holds a blob
under a key with a different (old) timestamp, a read computes a different
key, misses the stale entry, downloads fresh content and caches it under
the new key; if the key's timestamp matches, the cached blob is served. -/
theorem c9_blob_cache_coherence {g : Girder} {dl : String → List Nat}
    {st st' : FSState} {fid first : String} {rest : List String}
    {obj : Entry} {ty : ObjType} (t_old : String) (stale : List Nat)
    (hres : _get_object_by_path g st fid first rest = (Except.ok (obj, ty), st'))
    (hne : obj.updated.getD obj.created ≠ t_old) :
    rest_blob g dl st [(obj.oid ++ "#" ++ t_old, stale)] fid first rest
      = (Except.ok (dl obj.oid), st',
         [(blobKey obj, dl obj.oid), (obj.oid ++ "#" ++ t_old, stale)]) ∧
    rest_blob g dl st [(blobKey obj, stale)] fid first rest
      = (Except.ok stale, st', [(blobKey obj, stale)]) := by
  have hkey : obj.oid ++ "#" ++ t_old ≠ blobKey obj := blob_key_ne (Ne.symm hne)
  constructor
  · unfold rest_blob
    rw [hres]
    dsimp only
    rw [show alookup [(obj.oid ++ "#" ++ t_old, stale)] (blobKey obj) = none
          from by simp [alookup, hkey]]
  · unfold rest_blob
    rw [hres]
    dsimp only
    rw [show alookup [(blobKey obj, stale)] (blobKey obj) = some stale
          from by simp [alookup]]

/-- Witness for C9: with a stale blob cached under the old key `I1#t1`, a
read of `data.csv` (current timestamp `t2`) downloads fresh content and
caches it under `I1#t2`; with the blob cached under the current key
`I1#t2`, the cached bytes are served. -/
theorem c9_blob_cache_coherence_witness :
    rest_blob gW dlW st0 [("I1#t1", [0, 0])] "root" "data.csv" []
      = (Except.ok [9, 8, 7, 6, 5], st1,
         [("I1#t2", [9, 8, 7, 6, 5]), ("I1#t1", [0, 0])]) ∧
    rest_blob gW dlW st0 [("I1#t2", [0, 0])] "root" "data.csv" []
      = (Except.ok [0, 0], st1, [("I1#t2", [0, 0])]) :=
  @c9_blob_cache_coherence gW dlW st0 st1 "root" "data.csv" [] dataFile
    ObjType.file "t1" [0, 0] (by rfl) (by decide)

/-- C3 counterexample: the folder entry `noSizeFolder` conforms to the data
model of the claim (id, name, created, no size field), yet `getattr` on the
path resolving to it raises `KeyError` when evaluating `obj["size"]`
instead of returning directory-kind attributes. -/
theorem c3_counterexample :
    getattr gW tpW 999 st0 "root" ["proj"]
      = (Except.error PyErr.keyError, st1) := by rfl

/-- C3 amended: for a path resolving to a folder, `getattr` returns
directory-kind attributes with the fixed pair mode `S_IFDIR|0o755` and
link count 2 — but it requires (and reports) a `size` field on the folder
listing entry: `st_size` is the entry's size, and an entry without a size
field makes the call fail with `KeyError` rather than reporting size
unspecified or zero. -/
theorem c3_folder_getattr {g : Girder} {tp : String → Option Nat} {now : Nat}
    {st st' : FSState} {fid first : String} {rest : List String}
    {obj : Entry} {s c : Nat}
    (hres : _get_object_by_path g st fid first rest
              = (Except.ok (obj, ObjType.folder), st'))
    (hsz : obj.size = some s) (hc : tp obj.created = some c) :
    (∀ u m, obj.updated = some u → tp u = some m →
       getattr g tp now st fid (first :: rest)
         = (Except.ok { st_mode := 0o40755, st_nlink := 2, st_ctime := some c,
                        st_mtime := some m, st_blocks := some 1,
                        st_size := some s, st_atime := some now }, st')) ∧
    (obj.updated = none →
       getattr g tp now st fid (first :: rest)
         = (Except.ok { st_mode := 0o40755, st_nlink := 2, st_ctime := some c,
                        st_mtime := some c, st_blocks := some 1,
                        st_size := some s, st_atime := some now }, st')) := by
  have hc' : _convert_time tp obj.created = Except.ok c := by
    unfold _convert_time
    rw [hc]
  constructor
  · intro u m hu hm
    have hm' : _convert_time tp u = Except.ok m := by
      unfold _convert_time
      rw [hm]
    unfold getattr
    dsimp only
    rw [hres]
    dsimp only
    rw [hc']
    dsimp only
    rw [hu]
    dsimp only
    rw [hm']
    dsimp only
    rw [hsz]
  · intro hu
    unfold getattr
    dsimp only
    rw [hres]
    dsimp only
    rw [hc']
    dsimp only
    rw [hu]
    dsimp only
    rw [hsz]

/-- Witness for C3 amended: `getattr` on the folder `proj2` (which does
carry a size field) returns the fixed directory mode/link-count pair with
its size. -/
theorem c3_folder_getattr_witness :
    getattr gW tpW 42 st0 "root" ["proj2"]
      = (Except.ok { st_mode := 0o40755, st_nlink := 2, st_ctime := some 100,
                     st_mtime := some 200, st_blocks := some 1,
                     st_size := some 0, st_atime := some 42 }, st1) :=
  (c3_folder_getattr (by rfl) (by rfl) (by rfl)).1 "t2" 200 (by rfl) (by rfl)

/-- C5 counterexample: the file `bad` has an unparseable `created`
timestamp; `getattr` on it surfaces the uncaught parse exception
(`ValueError`) — not a not-found/IO-style error (`FuseOSError(ENOENT)`),
refuting the claim that a malformed timestamp is mapped to a
not-found/IO error. -/
theorem c5_counterexample :
    getattr gW tpW 5 st0 "root" ["bad"] = (Except.error PyErr.valueError, st1) ∧
    PyErr.valueError ≠ PyErr.enoent := by
  constructor
  · rfl
  · intro h
    cases h

/-- C5 amended: a malformed `created` timestamp — or a present but
malformed `updated` timestamp — makes `getattr` fail with the uncaught
parse exception `ValueError` propagating out of that single call (the
`except KeyError` fallback only covers a missing `updated` key); the error
is confined to that call (the returned state is the resolution state), but
it is a crash-style exception, not a not-found/IO error. -/
theorem c5_malformed_time {g : Girder} {tp : String → Option Nat} {now : Nat}
    {st st' : FSState} {fid first : String} {rest : List String}
    {obj : Entry} {ty : ObjType}
    (hres : _get_object_by_path g st fid first rest = (Except.ok (obj, ty), st')) :
    (tp obj.created = none →
       getattr g tp now st fid (first :: rest)
         = (Except.error PyErr.valueError, st')) ∧
    (∀ c u, tp obj.created = some c → obj.updated = some u → tp u = none →
       getattr g tp now st fid (first :: rest)
         = (Except.error PyErr.valueError, st')) := by
  constructor
  · intro h0
    have hc' : _convert_time tp obj.created = Except.error PyErr.valueError := by
      unfold _convert_time
      rw [h0]
    unfold getattr
    dsimp only
    rw [hres]
    dsimp only
    rw [hc']
  · intro c u hc hu hmu
    have hc' : _convert_time tp obj.created = Except.ok c := by
      unfold _convert_time
      rw [hc]
    have hm' : _convert_time tp u = Except.error PyErr.valueError := by
      unfold _convert_time
      rw [hmu]
    unfold getattr
    dsimp only
    rw [hres]
    dsimp only
    rw [hc']
    dsimp only
    rw [hu]
    dsimp only
    rw [hm']

/-- Witness for C5 amended: the file `badupd` has a parseable `created` but
an unparseable `updated`; `getattr` on it surfaces `ValueError`. -/
theorem c5_malformed_time_witness :
    getattr gW tpW 5 st0 "root" ["badupd"]
      = (Except.error PyErr.valueError, st1) :=
  (c5_malformed_time (by rfl)).2 100 "badtime" (by rfl) (by rfl) (by rfl)

/-- C10 counterexample: `getattr` on the file `data.csv` returns the fixed
mode `S_IFREG|0o644`, whose permission bits include the owner-write bit
`0o200` — the fixed permission is not read-only, refuting the
"fixed read-only permission" clause (size and timestamps do follow the
claim). -/
theorem c10_counterexample :
    getattr gW tpW 7 st0 "root" ["data.csv"]
      = (Except.ok { st_mode := 0o100644, st_nlink := 1, st_ctime := some 100,
                     st_mtime := some 200, st_blocks := some 1,
                     st_size := some 1024, st_atime := some 7 }, st1) ∧
    (0o100644 : Nat) &&& 0o222 = 0o200 := by
  constructor
  · rfl
  · rfl

/-- C10 amended: for a path resolving to a file, `getattr` returns
regular-file-kind attributes with `st_size` equal to the REST-reported byte
size and the fixed permission `0o644` (rw-r--r--, not read-only for the
owner), with `st_mtime` equal to the parsed `updated` timestamp when the
key is present and parseable, and otherwise (key missing) falling back to
the parsed `created` timestamp. -/
theorem c10_file_getattr {g : Girder} {tp : String → Option Nat} {now : Nat}
    {st st' : FSState} {fid first : String} {rest : List String}
    {obj : Entry} {s c : Nat}
    (hres : _get_object_by_path g st fid first rest
              = (Except.ok (obj, ObjType.file), st'))
    (hsz : obj.size = some s) (hc : tp obj.created = some c) :
    (∀ u m, obj.updated = some u → tp u = some m →
       getattr g tp now st fid (first :: rest)
         = (Except.ok { st_mode := 0o100644, st_nlink := 1, st_ctime := some c,
                        st_mtime := some m, st_blocks := some 1,
                        st_size := some s, st_atime := some now }, st')) ∧
    (obj.updated = none →
       getattr g tp now st fid (first :: rest)
         = (Except.ok { st_mode := 0o100644, st_nlink := 1, st_ctime := some c,
                        st_mtime := some c, st_blocks := some 1,
                        st_size := some s, st_atime := some now }, st')) := by
  have hc' : _convert_time tp obj.created = Except.ok c := by
    unfold _convert_time
    rw [hc]
  constructor
  · intro u m hu hm
    have hm' : _convert_time tp u = Except.ok m := by
      unfold _convert_time
      rw [hm]
    unfold getattr
    dsimp only
    rw [hres]
    dsimp only
    rw [hc']
    dsimp only
    rw [hu]
    dsimp only
    rw [hm']
    dsimp only
    rw [hsz]
  · intro hu
    unfold getattr
    dsimp only
    rw [hres]
    dsimp only
    rw [hc']
    dsimp only
    rw [hu]
    dsimp only
    rw [hsz]

/-- Witness for C10 amended: `data.csv` (updated present) gets
`st_mtime = 200` and size 1024; `nu` (no updated key) falls back to
`st_mtime = st_ctime = 100` with size 3. -/
theorem c10_file_getattr_witness :
    getattr gW tpW 7 st0 "root" ["nu"]
      = (Except.ok { st_mode := 0o100644, st_nlink := 1, st_ctime := some 100,
                     st_mtime := some 100, st_blocks := some 1,
                     st_size := some 3, st_atime := some 7 }, st1) :=
  (c10_file_getattr (by rfl) (by rfl) (by rfl)).2 (by rfl)

/-- C4 counterexample: the handle counter scheme hands out a live handle.
After two opens (returning handles 1 and 2) and a release of handle 1,
the live handles are exactly `[2]`, yet the next open returns 2 again —
a currently-live handle value, refuting the claim. -/
theorem c4_counterexample :
    runFd 0 [FEvent.op, FEvent.op, FEvent.rel 1, FEvent.op] = [1, 2, 2] ∧
    liveHandles [1, 2] [1] = [2] := by
  constructor
  · rfl
  · rfl

/-- Every handle handed out by a release-free run of opens exceeds the
starting counter value. -/
theorem runFd_gt (fd : Int) (es : List FEvent)
    (h : ∀ e ∈ es, e = FEvent.op) : ∀ x ∈ runFd fd es, fd < x := by
  induction es generalizing fd with
  | nil =>
    intro x hx
    cases hx
  | cons ehd etl ih =>
    have he : ehd = FEvent.op := h ehd (List.mem_cons_self _ _)
    subst he
    intro x hx
    simp only [runFd, fdOpen, List.mem_cons] at hx
    rcases hx with rfl | hx
    · exact lt_add_one fd
    · have hrec := ih (fd + 1) (fun e hm => h e (List.mem_cons_of_mem _ hm)) x hx
      linarith

/-- C4 amended: `open` returns one more than the shared counter (the number
of opens minus releases so far) and `release` decrements the counter
regardless of which handle is released; consequently the handles returned
by consecutive opens with no intervening release are strictly increasing
and pairwise distinct, but after a release an `open` may return a value
equal to a still-live handle (see the counterexample). -/
theorem c4_handles_increasing_without_release (fd : Int) (es : List FEvent)
    (h : ∀ e ∈ es, e = FEvent.op) : (runFd fd es).Pairwise (· < ·) := by
  induction es generalizing fd with
  | nil => exact List.Pairwise.nil
  | cons ehd etl ih =>
    have he : ehd = FEvent.op := h ehd (List.mem_cons_self _ _)
    subst he
    have htl : ∀ e ∈ etl, e = FEvent.op := fun e hm => h e (List.mem_cons_of_mem _ hm)
    simp only [runFd, fdOpen]
    exact List.Pairwise.cons (runFd_gt (fd + 1) etl htl) (ih (fd + 1) htl)

/-- Witness for C4 amended: three consecutive opens from a fresh counter
return the strictly increasing handles 1, 2, 3. -/
theorem c4_handles_increasing_without_release_witness :
    (runFd 0 [FEvent.op, FEvent.op, FEvent.op]).Pairwise
      (fun a b => a < b) :=
  c4_handles_increasing_without_release 0 [FEvent.op, FEvent.op, FEvent.op]
    (by decide)

/-- C8 counterexample: when both listing calls fail, the exception
surfaced by `_get_listing` is the cache lookup's `KeyError` — the
`return self.cache[obj_id]` inside the `finally` block swallows the
in-flight `girder_client.HttpError` — not an I/O-style (transport or
errno) error, refuting the "surfaced as an I/O error" part of the claim
(nothing is cached, as the state shows). -/
theorem c8_counterexample :
    _get_listing gFail st0 "x"
      = (Except.error PyErr.keyError, { cache := [], restCalls := 2 }) ∧
    PyErr.keyError ≠ PyErr.httpError ∧ PyErr.keyError ≠ PyErr.enoent := by
  refine ⟨rfl, ?_, ?_⟩
  · intro h
    cases h
  · intro h
    cases h

/-- C8 amended: on a listing-cache miss the folder-listing call is
attempted first and the item-listing call only on its failure, whichever
succeeds being cached under the same key; when both calls fail the
surfaced exception is a `KeyError` from the cache lookup in the `finally`
block (the HTTP error is swallowed), nothing is cached as a negative
result, and a subsequent get against a recovered service re-issues the
REST calls and succeeds. -/
theorem c8_listing_fallback (g g' : Girder) (st : FSState) (oid : String)
    (hmiss : alookup st.cache oid = none) :
    (∀ l, g.folderListing oid = some l →
       _get_listing g st oid
         = (Except.ok l, { cache := (oid, l) :: st.cache,
                           restCalls := st.restCalls + 1 })) ∧
    (∀ l, g.folderListing oid = none → g.itemListing oid = some l →
       _get_listing g st oid
         = (Except.ok l, { cache := (oid, l) :: st.cache,
                           restCalls := st.restCalls + 2 })) ∧
    (g.folderListing oid = none → g.itemListing oid = none →
       _get_listing g st oid
         = (Except.error PyErr.keyError,
            { cache := st.cache, restCalls := st.restCalls + 2 }) ∧
       (∀ l, g'.folderListing oid = some l →
          _get_listing g' { cache := st.cache, restCalls := st.restCalls + 2 } oid
            = (Except.ok l, { cache := (oid, l) :: st.cache,
                              restCalls := st.restCalls + 3 }))) := by
  refine ⟨?_, ?_, ?_⟩
  · intro l hf
    unfold _get_listing
    rw [hmiss, hf]
  · intro l hf hi
    unfold _get_listing
    rw [hmiss, hf, hi]
  · intro hf hi
    constructor
    · unfold _get_listing
      rw [hmiss, hf, hi]
    · intro l hf'
      unfold _get_listing
      dsimp only
      rw [hmiss, hf']

/-- Witness for C8 amended: against `gItem` (folder call fails, item call
succeeds) the root listing is fetched by the fallback and cached; against
`gFail` (both fail) the `KeyError` is surfaced and nothing is cached; a
retry from the resulting state against the recovered service `gW`
re-issues the calls and succeeds. -/
theorem c8_listing_fallback_witness :
    _get_listing gItem st0 "root"
      = (Except.ok rootL, { cache := [("root", rootL)], restCalls := 2 }) ∧
    _get_listing gFail st0 "root"
      = (Except.error PyErr.keyError, { cache := [], restCalls := 2 }) ∧
    _get_listing gW { cache := [], restCalls := 2 } "root"
      = (Except.ok rootL, { cache := [("root", rootL)], restCalls := 3 }) := by
  refine ⟨?_, ?_, ?_⟩
  · exact (c8_listing_fallback gItem gW st0 "root" rfl).2.1 rootL rfl rfl
  · exact ((c8_listing_fallback gFail gW st0 "root" rfl).2.2 rfl rfl).1
  · exact ((c8_listing_fallback gFail gW st0 "root" rfl).2.2 rfl rfl).2 rootL rfl

end Girderfs
